import Mathlib

/-!
Verification development for the ai-data-agent backend core: a shallow
embedding of the data-cleaning pipeline (`app/utils/data_cleaner.py`), the
deterministic fallback intent classifier (`app/services/llm_service.py`)
and the intent-execution router with its handlers
(`app/services/query_processor.py`), together with theorems settling the
frozen claims about them.

Modelling conventions:
* A pandas DataFrame is a `DataFrame`: an ordered list of named, dtyped
  columns of `Cell` values.  64-bit floats are modelled as exact fractions
  (the `Q` type); NaN / None / NaT are all the `Cell.null` marker.
* Python exceptions inside a handler are `Except.error`; the router's
  try/except is the `match` in `execute_intent`.
* `pandas.DataFrame.sample` (a uniformly random subset) is modelled as
  taking the first n rows; only the size and schema of the sample feed any
  claim.  Pearson correlations are carried exactly as the pair
  (num, den) with r = num / sqrt den, instead of a rounded float.
-/

/-- An exact fraction num/den standing in for a 64-bit float.  It is kept
unnormalized (no gcd reduction, so every arithmetic step reduces inside
the kernel); comparisons and value equality sign-normalize and
cross-multiply.  No value the embedding builds has denominator 0
(division by a zero value yields 0). -/
structure Q where
  num : Int
  den : Int
deriving DecidableEq, Repr

/-- Sign-normalize to a positive denominator (0-denominator garbage
collapses to 0). -/
def Q.norm (x : Q) : Q :=
  if x.den < 0 then ⟨-x.num, -x.den⟩ else if x.den = 0 then ⟨0, 1⟩ else x

instance (n : Nat) : OfNat Q n := ⟨⟨(n : Int), 1⟩⟩

instance : NatCast Q := ⟨fun n => ⟨(n : Int), 1⟩⟩

instance : IntCast Q := ⟨fun n => ⟨n, 1⟩⟩

instance : Neg Q := ⟨fun x => ⟨-x.num, x.den⟩⟩

instance : Add Q := ⟨fun x y => ⟨x.num * y.den + y.num * x.den, x.den * y.den⟩⟩

instance : Sub Q := ⟨fun x y => ⟨x.num * y.den - y.num * x.den, x.den * y.den⟩⟩

instance : Mul Q := ⟨fun x y => ⟨x.num * y.num, x.den * y.den⟩⟩

def Q.inv (x : Q) : Q := if x.num = 0 then ⟨0, 1⟩ else ⟨x.den, x.num⟩

instance : Div Q := ⟨fun x y => x * Q.inv y⟩

/-- Value equality of the denoted rationals. -/
def Q.beq (x y : Q) : Bool :=
  (Q.norm x).num * (Q.norm y).den == (Q.norm y).num * (Q.norm x).den

def Q.ble (x y : Q) : Bool :=
  decide ((Q.norm x).num * (Q.norm y).den ≤ (Q.norm y).num * (Q.norm x).den)

def Q.blt (x y : Q) : Bool :=
  decide ((Q.norm x).num * (Q.norm y).den < (Q.norm y).num * (Q.norm x).den)

instance : LE Q := ⟨fun x y => Q.ble x y = true⟩

instance : LT Q := ⟨fun x y => Q.blt x y = true⟩

instance (x y : Q) : Decidable (x ≤ y) := decidable_of_iff (Q.ble x y = true) Iff.rfl

instance (x y : Q) : Decidable (x < y) := decidable_of_iff (Q.blt x y = true) Iff.rfl

/-- Floor to an integer. -/
def Q.floorInt (x : Q) : Int := (Q.norm x).num.fdiv (Q.norm x).den

def qMax? (l : List Q) : Option Q :=
  l.foldl (fun acc x =>
    match acc with
    | none => some x
    | some m => some (if Q.ble m x then x else m)) none

def qMin? (l : List Q) : Option Q :=
  l.foldl (fun acc x =>
    match acc with
    | none => some x
    | some m => some (if Q.ble x m then x else m)) none

/-- Keep the first occurrence of each value under the given equality. -/
def dedupByAux {α : Type} (eq : α → α → Bool) : List α → List α → List α
  | _, [] => []
  | seen, x :: xs =>
    if seen.any (fun s => eq s x) then dedupByAux eq seen xs
    else x :: dedupByAux eq (x :: seen) xs

def dedupBy {α : Type} (eq : α → α → Bool) (l : List α) : List α :=
  dedupByAux eq [] l

/-- A cell value: the closed tagged variant of §3 of the spec.
`float` carries an exact fraction in place of a 64-bit float; `null`
stands for NaN, NaT and None alike. -/
inductive Cell where
  | float (q : Q)
  | text (s : String)
  | bool (b : Bool)
  | timestamp (t : Int)
  | null
deriving DecidableEq, Repr

/-- A pandas column dtype, as far as the code inspects it. -/
inductive DType where
  | float
  | object
  | datetime
  | bool
deriving DecidableEq, Repr

/-- One named column of a DataFrame. -/
structure Column where
  name : String
  dtype : DType
  values : List Cell
deriving DecidableEq, Repr

/-- A pandas DataFrame: ordered named columns. -/
structure DataFrame where
  cols : List Column
deriving DecidableEq, Repr

/-- Row count (`len(df)`): the length of the first column (pandas keeps all
columns the same length; a frame with no columns has no row storage here). -/
def DataFrame.nrows (df : DataFrame) : Nat :=
  match df.cols with
  | [] => 0
  | c :: _ => c.values.length

/-- Well-formedness: every column has the frame's row count. -/
def DataFrame.wfb (df : DataFrame) : Bool :=
  df.cols.all (fun c => c.values.length == df.nrows)

def DataFrame.colNames (df : DataFrame) : List String :=
  df.cols.map (fun c => c.name)

/-- `df[name]`: the first column of that name (the code never builds
duplicate-selection frames on the inputs the claims use). -/
def DataFrame.findCol (df : DataFrame) (n : String) : Option Column :=
  df.cols.find? (fun c => c.name == n)

def DataFrame.hasCol (df : DataFrame) (n : String) : Bool :=
  (df.findCol n).isSome

/-- The rows of the frame, each a list of cells in column order. -/
def dfRows (df : DataFrame) : List (List Cell) :=
  (List.range df.nrows).map (fun i => df.cols.map (fun c => c.values.getD i Cell.null))

/-- A record as produced by `to_dict("records")`: field name to value. -/
abbrev Row := List (String × Cell)

/-- `df.to_dict("records")`. -/
def dfRecords (df : DataFrame) : List Row :=
  (List.range df.nrows).map (fun i => df.cols.map (fun c => (c.name, c.values.getD i Cell.null)))

/- ----------------------------------------------------------------
   String helpers shared by the pipeline and the fallback classifier
   ---------------------------------------------------------------- -/

/-- Does the character list start with the given list? -/
def listStartsWith : List Char → List Char → Bool
  | _, [] => true
  | [], _ :: _ => false
  | c :: cs, d :: ds => c == d && listStartsWith cs ds

/-- Substring containment on character lists (Python `needle in hay`). -/
def listContainsSub : List Char → List Char → Bool
  | [], needle => needle.isEmpty
  | c :: cs, needle => listStartsWith (c :: cs) needle || listContainsSub cs needle

/-- Python `needle in hay` on strings (the empty needle is contained). -/
def containsSub (hay needle : String) : Bool :=
  listContainsSub hay.toList needle.toList

/-- Python `str.strip()`: drop leading and trailing whitespace. -/
def strTrim (s : String) : String :=
  String.mk (((s.toList.dropWhile Char.isWhitespace).reverse.dropWhile Char.isWhitespace).reverse)

/-- Python `str.lower()` (ASCII, which covers every keyword involved). -/
def strToLower (s : String) : String :=
  String.mk (s.toList.map Char.toLower)

/-- Replace every (non-overlapping, left-to-right) occurrence of `pat` by
`rep`, as Python `str.replace` does.  The fuel (the input's length is
enough, as every step consumes at least one character) keeps the recursion
structural. -/
def replaceSubFuel (pat rep : List Char) : Nat → List Char → List Char
  | _, [] => []
  | 0, l => l
  | fuel + 1, c :: cs =>
    if pat ≠ [] ∧ listStartsWith (c :: cs) pat then
      rep ++ replaceSubFuel pat rep fuel ((c :: cs).drop pat.length)
    else c :: replaceSubFuel pat rep fuel cs

def strReplace (s pat rep : String) : String :=
  String.mk (replaceSubFuel pat.toList rep.toList s.toList.length s.toList)

/-- Split at every occurrence of the separator character. -/
def splitOnChar (sep : Char) : List Char → List (List Char)
  | [] => [[]]
  | c :: cs =>
    if c = sep then [] :: splitOnChar sep cs
    else
      match splitOnChar sep cs with
      | [] => [[c]]
      | h :: t => (c :: h) :: t

/-- `\w` of the source's regexes (ASCII alphanumeric or underscore). -/
def isWordChar (c : Char) : Bool := c.isAlphanum || c == '_'

/-- Replace every maximal run of characters matching `p` by the single
character `rep` (the `re.sub(r"\s+", "_", ...)`-style passes).  The flag
records whether the previous character was in a run. -/
def squashAux (p : Char → Bool) (rep : Char) : Bool → List Char → List Char
  | _, [] => []
  | inRun, c :: cs =>
    if p c then (if inRun then [] else [rep]) ++ squashAux p rep true cs
    else c :: squashAux p rep false cs

/-- `_clean_column_name`: strip, drop non-word non-space characters,
whitespace runs to `_`, collapse `_` runs, strip `_`, empty becomes
`Column`. -/
def clean_column_name (name : String) : String :=
  let s1 := strTrim name
  let s2 := s1.toList.filter (fun c => isWordChar c || c.isWhitespace)
  let s3 := squashAux (fun c => c.isWhitespace) '_' false s2
  let s4 := squashAux (fun c => c == '_') '_' false s3
  let s5 := ((s4.dropWhile (fun c => c == '_')).reverse.dropWhile (fun c => c == '_')).reverse
  let r := String.mk s5
  if r = "" then "Column" else r

/-- Python `str(...)` of a cell, as `astype(str)` renders it (NaN prints as
"nan").  Non-integral rationals are rendered num/den, unlike CPython's
decimal rendering; no claim puts a non-integral float in an object column. -/
def floatRepr (q : Q) : String :=
  if q.den = 1 then toString q.num ++ ".0" else toString q.num ++ "/" ++ toString q.den

def cellToStr : Cell → String
  | .float q => floatRepr q
  | .text s => s
  | .bool true => "True"
  | .bool false => "False"
  | .timestamp t => toString t
  | .null => "nan"

/-- pandas value equality between cells of one column, as `unique()`,
`mode()`, groupby keys and `drop_duplicates` use it (there NaN does match
NaN). -/
def cellBeq : Cell → Cell → Bool
  | .float a, .float b => Q.beq a b
  | .text a, .text b => a == b
  | .bool a, .bool b => a == b
  | .timestamp a, .timestamp b => a == b
  | .null, .null => true
  | _, _ => false

def rowCellsBeq : List Cell → List Cell → Bool
  | [], [] => true
  | a :: as, b :: bs => cellBeq a b && rowCellsBeq as bs
  | _, _ => false

/- ----------------------------------------------------------------
   DataCleaner._handle_unnamed_columns
   ---------------------------------------------------------------- -/

def firstNonNull (l : List Cell) : Option Cell :=
  l.find? (fun v => v ≠ Cell.null)

/-- One step of the unnamed-column loop.  State: (synthetic-name counter,
columns kept so far).  Column names are strings here, so the `pd.isna(col)`
disjunct of the source cannot fire.  A first value that is a non-empty
string shorter than 50 characters names the column (the Python truthiness
test rules out the empty string); any other non-null first value falls to a
synthetic `Column_<n>`; an all-null `Unnamed` column is dropped. -/
def unnamedStep (st : Nat × List Column) (c : Column) : Nat × List Column :=
  if containsSub c.name "Unnamed" then
    if c.values.any (fun v => v ≠ Cell.null) then
      match firstNonNull c.values with
      | some (.text s) =>
        if s ≠ "" ∧ s.length < 50 then
          (st.1, st.2 ++ [{ c with name := clean_column_name s }])
        else
          (st.1 + 1, st.2 ++ [{ c with name := "Column_" ++ toString (st.1 + 1) }])
      | _ => (st.1 + 1, st.2 ++ [{ c with name := "Column_" ++ toString (st.1 + 1) }])
    else (st.1, st.2)
  else (st.1, st.2 ++ [c])

def handle_unnamed_columns (df : DataFrame) : DataFrame :=
  ⟨(df.cols.foldl unnamedStep (0, [])).2⟩

/- ----------------------------------------------------------------
   DataCleaner._clean_column_names
   ---------------------------------------------------------------- -/

/-- The values marked by `cols.duplicated()` (each occurrence after the
first), in positional order. -/
def dupMarks : List String → List String → List String
  | _, [] => []
  | seen, x :: rest =>
    if seen.contains x then x :: dupMarks (x :: seen) rest
    else dupMarks (x :: seen) rest

/-- `cols[cols.duplicated()].unique()`. -/
def dupList (names : List String) : List String :=
  (dupMarks [] names).eraseDups

/-- `np.where(cols == dup)[0]` on the current names. -/
def idxsOf (names : List String) (v : String) : List Nat :=
  (List.range names.length).filter (fun i => names.getD i "" == v)

def renameDupAux (dup : String) : Nat → List Nat → List String → List String
  | _, [], ns => ns
  | i, idx :: rest, ns => renameDupAux dup (i + 1) rest (ns.set idx (dup ++ "_" ++ toString i))

/-- For one duplicated value: rename its 2nd, 3rd, ... occurrence (indices
recomputed on the names as mutated so far) to `dup_1`, `dup_2`, ... -/
def renameDup (names : List String) (dup : String) : List String :=
  renameDupAux dup 1 ((idxsOf names dup).drop 1) names

/-- The duplicate-name pass: the list of duplicated values is computed once
from the cleaned names, then each is renamed in turn on the mutating list. -/
def dedupNames (names : List String) : List String :=
  (dupList names).foldl renameDup names

def clean_column_names (df : DataFrame) : DataFrame :=
  let names := dedupNames (df.cols.map (fun c => clean_column_name c.name))
  ⟨df.cols.zipWith (fun c n => { c with name := n }) names⟩

/- ----------------------------------------------------------------
   DataCleaner._detect_and_convert_types
   ---------------------------------------------------------------- -/

def allDigits (l : List Char) : Bool := (!l.isEmpty) && l.all (fun c => c.isDigit)

def digitsVal (l : List Char) : Nat :=
  l.foldl (fun a c => a * 10 + (c.toNat - 48)) 0

/-- Unsigned decimal parse: digits with at most one point.  Scientific
notation, inf and nan are not parsed (`pd.to_numeric` would turn "nan" into
NaN, which the 50% test counts as unparsed, exactly as `none` does here). -/
def parseUnsigned (l : List Char) : Option Q :=
  let ip := l.takeWhile (fun c => c ≠ '.')
  let rest := l.dropWhile (fun c => c ≠ '.')
  match rest with
  | [] => if allDigits ip then some ((digitsVal ip : Q)) else none
  | _ :: fp =>
    if (ip.all (fun c => c.isDigit)) && (fp.all (fun c => c.isDigit)) && (!ip.isEmpty || !fp.isEmpty) then
      some ((digitsVal ip : Q) + (digitsVal fp : Q) / ((10 ^ fp.length : Nat) : Q))
    else none

def parseNumeric (s : String) : Option Q :=
  match s.toList with
  | [] => none
  | '+' :: rest => parseUnsigned rest
  | '-' :: rest => (parseUnsigned rest).map (fun q => -q)
  | l => parseUnsigned l

/-- `astype(str).str.replace(",", "").str.replace("$", "").str.strip()`. -/
def numericCleanStr (v : Cell) : String :=
  strTrim (String.mk ((cellToStr v).toList.filter (fun c => c ≠ ',' && c ≠ '$')))

/-- The numeric parse of each raw cell after separator stripping. -/
def numericParsed (vals : List Cell) : List (Option Q) :=
  vals.map (fun v => parseNumeric (numericCleanStr v))

/-- The date-likeness gate: `str(sample.values)` of the first 10 non-null
values rendered as a numpy string array, searched for "/", "-", "20", "19". -/
def dateHint (vals : List Cell) : Bool :=
  let sample := ((vals.filter (fun v => v ≠ Cell.null)).take 10).map cellToStr
  let rendered := "[" ++ String.intercalate " " (sample.map (fun s => "'" ++ s ++ "'")) ++ "]"
  containsSub rendered "/" || containsSub rendered "-" ||
    containsSub rendered "20" || containsSub rendered "19"

/-- A best-effort timestamp parse: ISO-style Y-M-D or Y/M/D with a 4-digit
year (stands in for `pd.to_datetime`; no claim rests on richer formats). -/
def parseDateParts (y m d : String) : Option Int :=
  if allDigits y.toList && y.length = 4 && allDigits m.toList && m.length ≤ 2 &&
      allDigits d.toList && d.length ≤ 2 && 1 ≤ digitsVal m.toList &&
      digitsVal m.toList ≤ 12 && 1 ≤ digitsVal d.toList && digitsVal d.toList ≤ 31 then
    some ((digitsVal y.toList : Int) * 10000 + (digitsVal m.toList : Int) * 100 + (digitsVal d.toList : Int))
  else none

def parseDate (s : String) : Option Int :=
  match (splitOnChar '-' s.toList).map String.mk with
  | [y, m, d] => parseDateParts y m d
  | _ =>
    match (splitOnChar '/' s.toList).map String.mk with
    | [y, m, d] => parseDateParts y m d
    | _ => none

def cellToDate : Cell → Option Int
  | .text s => parseDate s
  | .timestamp t => some t
  | _ => none

def boolLexicon : List String := ["true", "false", "yes", "no", "1", "0"]

def trueKeys : List String := ["true", "True", "TRUE", "1", "yes", "Yes", "YES"]

def falseKeys : List String := ["false", "False", "FALSE", "0", "no", "No", "NO"]

/-- `Series.map` through the boolean dictionary: keys are the exact strings
of the source's dict; anything else (including null) maps to null. -/
def mapBoolCell : Cell → Cell
  | .text s =>
    if trueKeys.contains s then .bool true
    else if falseKeys.contains s then .bool false
    else .null
  | _ => .null

/-- Distinct non-null values in order of first appearance
(`df[col].dropna().unique()`). -/
def uniqueNonNull (vals : List Cell) : List Cell :=
  dedupBy cellBeq (vals.filter (fun v => v ≠ Cell.null))

/-- The boolean-detection step: at most 3 distinct non-null values, one of
which (lowercased as a string) is in the lexicon.  The mapped column has
dtype bool when nothing mapped to null, else stays object. -/
def boolStep (c : Column) : Column :=
  if (uniqueNonNull c.values).length ≤ 3 &&
      (uniqueNonNull c.values).any (fun v => boolLexicon.contains (strToLower (cellToStr v))) then
    { c with
      dtype := if (c.values.map mapBoolCell).all (fun v => v ≠ Cell.null) then .bool else .object,
      values := c.values.map mapBoolCell }
  else c

/-- Per-column type inference: numeric (strictly more than 50% of `len(df)`
parses) wins, else datetime behind the date-likeness gate, else boolean.
Non-object columns pass through. -/
def convert_column (n : Nat) (c : Column) : Column :=
  if c.dtype ≠ DType.object then c
  else if 2 * (numericParsed c.values).countP (fun o => o.isSome) > n then
    { c with dtype := .float,
             values := (numericParsed c.values).map (fun o => match o with
               | some q => Cell.float q
               | none => Cell.null) }
  else if dateHint c.values then
    if 2 * (c.values.map cellToDate).countP (fun o => o.isSome) > n then
      { c with dtype := .datetime,
               values := (c.values.map cellToDate).map (fun o => match o with
                 | some t => Cell.timestamp t
                 | none => Cell.null) }
    else boolStep c
  else boolStep c

def detect_and_convert_types (df : DataFrame) : DataFrame :=
  ⟨df.cols.map (convert_column df.nrows)⟩

/- ----------------------------------------------------------------
   DataCleaner._handle_missing_values
   ---------------------------------------------------------------- -/

def nullCount (c : Column) : Nat := c.values.countP (fun v => v == Cell.null)

/-- The numeric value of a cell where pandas would use one (bools count as
numbers for `is_numeric_dtype` columns). -/
def cellQ : Cell → Option Q
  | .float q => some q
  | .bool b => some (if b then 1 else 0)
  | _ => none

def colQs (c : Column) : List Q := c.values.filterMap cellQ

def qSum (l : List Q) : Q := l.foldl (fun a x => a + x) 0

def medianQ (l : List Q) : Option Q :=
  let s := List.insertionSort (fun a b => a ≤ b) l
  let n := s.length
  if n = 0 then none
  else if n % 2 = 1 then some (s.getD (n / 2) 0)
  else some ((s.getD (n / 2 - 1) 0 + s.getD (n / 2) 0) / 2)

/-- `pd.api.types.is_numeric_dtype` (bool columns are numeric). -/
def isNumericDtype (d : DType) : Bool := d == DType.float || d == DType.bool

/-- One column through `_handle_missing_values`' loop (`n` is `len(df)`,
unchanged by column drops): none means dropped.  All-null and >90%-null
columns are dropped; numeric columns under 50% null are median-imputed;
object columns (`is_string_dtype` is true for the object dtype) have nulls
filled with the empty string; the rest pass through. -/
def missingStep (n : Nat) (c : Column) : Option Column :=
  let nc := nullCount c
  if nc = n then none
  else if nc > 0 then
    if 10 * nc > 9 * n then none
    else if isNumericDtype c.dtype then
      if 2 * nc < n then
        match medianQ (colQs c) with
        | some m => some { c with values := c.values.map (fun v => if v == Cell.null then Cell.float m else v) }
        | none => some c
      else some c
    else if c.dtype == DType.object then
      some { c with values := c.values.map (fun v => if v == Cell.null then Cell.text "" else v) }
    else some c
  else some c

/-- Keep the rows whose mask entry is true. -/
def maskFilter {α : Type} : List α → List Bool → List α
  | [], _ => []
  | _, [] => []
  | v :: vs, b :: bs => if b then v :: maskFilter vs bs else maskFilter vs bs

def applyMask (df : DataFrame) (mask : List Bool) : DataFrame :=
  ⟨df.cols.map (fun c => { c with values := maskFilter c.values mask })⟩

/-- `df.dropna(how="all")`: keep the rows with at least one non-null. -/
def dropAllNullRows (df : DataFrame) : DataFrame :=
  applyMask df ((List.range df.nrows).map (fun i => df.cols.any (fun c => c.values.getD i Cell.null ≠ Cell.null)))

def handle_missing_values (df : DataFrame) : DataFrame :=
  dropAllNullRows ⟨df.cols.filterMap (missingStep df.nrows)⟩

/- ----------------------------------------------------------------
   DataCleaner._remove_duplicate_rows and _standardize_text_columns
   ---------------------------------------------------------------- -/

/-- True at each row seen for the first time (`drop_duplicates` keeps the
first occurrence; null equals null there, as in pandas). -/
def firstOccMask : List (List Cell) → List (List Cell) → List Bool
  | _, [] => []
  | seen, r :: rest => (!seen.any (fun s => rowCellsBeq s r)) :: firstOccMask (r :: seen) rest

def remove_duplicate_rows (df : DataFrame) : DataFrame :=
  applyMask df (firstOccMask [] (dfRows df))

def fixAccents (s : String) : String :=
  strReplace (strReplace s "Ã©" "é") "Ã" "à"

def nanLiterals : List String := ["nan", "NaN", "NULL", "null", "None"]

/-- One cell through `_standardize_text_columns`' passes: `astype(str)`
(null renders as "nan"), strip, whitespace runs to one space, the two
mojibake repairs, then the null-literal strings back to the missing
marker. -/
def standardizeCell (v : Cell) : Cell :=
  let s1 := strTrim (cellToStr v)
  let s2 := String.mk (squashAux (fun c => c.isWhitespace) ' ' false s1.toList)
  let s3 := fixAccents s2
  if nanLiterals.contains s3 then Cell.null else Cell.text s3

def standardize_text_columns (df : DataFrame) : DataFrame :=
  ⟨df.cols.map (fun c =>
    if c.dtype == DType.object then { c with values := c.values.map standardizeCell } else c)⟩

/-- `DataCleaner.clean_dataframe`: the six stages in the source's order. -/
def clean_dataframe (df : DataFrame) : DataFrame :=
  standardize_text_columns
    (remove_duplicate_rows
      (handle_missing_values
        (detect_and_convert_types
          (clean_column_names
            (handle_unnamed_columns df)))))

/- ----------------------------------------------------------------
   LLMService._fallback_analysis and _detect_operation
   ---------------------------------------------------------------- -/

/-- The structured intent, as the dict both classifier paths return
(`intent.get` defaults are the fields' meaning at the router). -/
structure IntentDict where
  intent : String
  columns : List String
  operation : String
  filters : List (String × Cell)
  chart_type : Option String
  explanation : String
deriving DecidableEq, Repr

def vizWords : List String := ["chart", "plot", "graph", "visualize"]

def filterWords : List String := ["filter", "where", "only"]

def aggWords : List String := ["average", "sum", "total", "count", "mean"]

def compareWords : List String := ["compare", "versus", "vs"]

def corrWords : List String := ["correlation", "relate"]

def hasAnyWord (q : String) (ws : List String) : Bool :=
  ws.any (fun w => containsSub q w)

/-- The keyword-priority intent chain over the lowercased query. -/
def detectIntent (ql : String) : String :=
  if hasAnyWord ql vizWords then "visualize"
  else if hasAnyWord ql filterWords then "filter"
  else if hasAnyWord ql aggWords then "aggregate"
  else if hasAnyWord ql compareWords then "compare"
  else if hasAnyWord ql corrWords then "correlation"
  else "summarize"

/-- `LLMService._detect_operation` over the lowercased query. -/
def detect_operation (q : String) : String :=
  if containsSub q "sum" || containsSub q "total" then "sum"
  else if containsSub q "average" || containsSub q "mean" then "mean"
  else if containsSub q "count" then "count"
  else if containsSub q "max" || containsSub q "maximum" then "max"
  else if containsSub q "min" || containsSub q "minimum" then "min"
  else "describe"

def detectChartType (ql : String) : Option String :=
  if containsSub ql "bar" then some "bar"
  else if containsSub ql "line" then some "line"
  else if containsSub ql "pie" then some "pie"
  else none

/-- `LLMService._fallback_analysis` (`columns` is the column-name list of
the data context; the other context fields are unused by the source). -/
def fallback_analysis (query : String) (columns : List String) : IntentDict :=
  let ql := strToLower query
  let mentioned := columns.filter (fun c => containsSub ql (strToLower c))
  { intent := detectIntent ql,
    columns := if mentioned.isEmpty then columns.take 2 else mentioned,
    operation := detect_operation ql,
    filters := [],
    chart_type := detectChartType ql,
    explanation := "I understood you want to " ++ detectIntent ql ++ " the data" }

/- ----------------------------------------------------------------
   schemas.py: ChartSpec / QueryResponse, and payload carriers
   ---------------------------------------------------------------- -/

/-- One reported correlation pair.  The float the source stores as
`round(float(corr_value), 3)` is carried exactly: the Pearson coefficient
is num / sqrt den with num = n*Sxy - Sx*Sy and den the product of the two
variance numerators over the pairwise-complete observations.  The source
sorts by the absolute value of the 3-decimal rounding; rounding is
monotone, so that order can differ from the exact-abs-r order only among
pairs whose displays tie at 3 decimals — the embedding sorts by the exact
value. -/
structure CorrEntry where
  col1 : String
  col2 : String
  num : Q
  den : Q
  strength : String
deriving DecidableEq, Repr

/-- The `data` field of a response: a list of records, or the correlation
table (whose "Correlation" floats are carried exactly, see `CorrEntry`). -/
inductive Payload where
  | table (rows : List Row)
  | correlations (entries : List CorrEntry)
deriving DecidableEq, Repr

structure ChartSpecL where
  type : String
  data : List Row
  x_axis : String
  y_axis : String
  title : String
deriving DecidableEq, Repr

structure QueryResponseL where
  sender : String
  text : String
  data : Option Payload
  chart : Option ChartSpecL
deriving DecidableEq, Repr

/- ----------------------------------------------------------------
   QueryProcessor: shared column statistics
   ---------------------------------------------------------------- -/

/-- `select_dtypes(include=[np.number])`: float columns (np.number excludes
bool). -/
def selectNumber (df : DataFrame) : List Column :=
  df.cols.filter (fun c => c.dtype == DType.float)

def colSum (c : Column) : Q := qSum (colQs c)

def colMean (c : Column) : Option Q :=
  let l := colQs c
  if l.length = 0 then none else some (qSum l / (l.length : Q))

/-- `count()`: non-null entries. -/
def colCount (c : Column) : Nat := c.values.countP (fun v => v ≠ Cell.null)

def colMax (c : Column) : Option Q := qMax? (colQs c)

def colMin (c : Column) : Option Q := qMin? (colQs c)

/-- Sample variance (ddof = 1), none when fewer than 2 observations.  The
source displays `std()`, its square root: the root is irrational in
general, the variance is its faithful rational determination, and no claim
consumes the displayed value. -/
def varianceQ (l : List Q) : Option Q :=
  let n := l.length
  if n < 2 then none
  else
    let m := qSum l / (n : Q)
    some ((l.foldl (fun a x => a + (x - m) * (x - m)) 0) / ((n : Q) - 1))

def optQCell : Option Q → Cell
  | some q => .float q
  | none => .null

def countUnique (c : Column) : Nat :=
  (dedupBy cellBeq (c.values.filter (fun v => v ≠ Cell.null))).length

/-- `mode().iloc[0]`: a most frequent non-null value (pandas sorts modes and
takes the least; the tie choice feeds only display strings). -/
def colMode (c : Column) : Option Cell :=
  let nn := c.values.filter (fun v => v ≠ Cell.null)
  (((dedupBy cellBeq nn).map (fun v => (v, nn.countP (fun x => cellBeq x v)))).foldl
    (fun best p =>
      match best with
      | none => some p
      | some q => if p.2 > q.2 then some p else some q) none).map (fun p => p.1)

/-- Python `round(x, 2)` (display only; the half-to-even edge is not hit by
any claim). -/
def roundQ2 (q : Q) : Q := ((Q.floorInt (q * 100 + (1 : Q) / 2) : Int) : Q) / 100

/- ----------------------------------------------------------------
   QueryProcessor._perform_aggregation
   ---------------------------------------------------------------- -/

def seriesRow (n : String) (v : Option Q) : Row :=
  [("Column", Cell.text n), ("Value", optQCell v)]

/-- One stat row of `describe().reset_index().to_dict("records")` (std and
the quartiles are irrational displays and are omitted; no claim reads
them). -/
def describeRows (chosen : List Column) : List Row :=
  [("index", Cell.text "count") :: chosen.map (fun c => (c.name, Cell.float (colCount c : Q))),
   ("index", Cell.text "mean") :: chosen.map (fun c => (c.name, optQCell (colMean c))),
   ("index", Cell.text "min") :: chosen.map (fun c => (c.name, optQCell (colMin c))),
   ("index", Cell.text "max") :: chosen.map (fun c => (c.name, optQCell (colMax c)))]

/-- `QueryProcessor._perform_aggregation`. -/
def perform_aggregation (df : DataFrame) (columns0 : List String) (operation : String) : QueryResponseL :=
  let numericNames := (selectNumber df).map (fun c => c.name)
  let columns :=
    if columns0.isEmpty || columns0 == ["*"] then numericNames
    else columns0.filter (fun c => numericNames.contains c)
  if columns.isEmpty then
    { sender := "ai",
      text := "No numeric columns found for aggregation. Please specify numeric columns.",
      data := none, chart := none }
  else
    let chosen := columns.filterMap (fun n => df.findCol n)
    let rows :=
      if operation = "sum" then chosen.map (fun c => seriesRow c.name (some (colSum c)))
      else if operation = "mean" then chosen.map (fun c => seriesRow c.name (colMean c))
      else if operation = "count" then chosen.map (fun c => seriesRow c.name (some ((colCount c : Q))))
      else if operation = "max" then chosen.map (fun c => seriesRow c.name (colMax c))
      else if operation = "min" then chosen.map (fun c => seriesRow c.name (colMin c))
      else describeRows chosen
    { sender := "ai",
      text := "Here are the " ++ operation ++ " values for the requested columns:",
      data := some (.table rows), chart := none }

/- ----------------------------------------------------------------
   QueryProcessor._filter_data
   ---------------------------------------------------------------- -/

/-- Python `==` between a cell and a filter literal: null compares unequal
to everything (NaN semantics); bools compare equal to their 0/1 value. -/
def cellEqPy : Cell → Cell → Bool
  | .null, _ => false
  | _, .null => false
  | .float a, .float b => Q.beq a b
  | .float a, .bool b => Q.beq a (if b then (1 : Q) else 0)
  | .bool a, .float b => Q.beq (if a then (1 : Q) else 0) b
  | .bool a, .bool b => a == b
  | .text a, .text b => a == b
  | .timestamp a, .timestamp b => a == b
  | _, _ => false

def rowGet (r : Row) (n : String) : Cell :=
  ((r.find? (fun p => p.1 == n)).map (fun p => p.2)).getD Cell.null

/-- `QueryProcessor._filter_data`: conjunctive equality filters; a filter on
an absent column is ignored; `filtered_df.empty` is true when there are no
rows or no columns. -/
def filter_data (df : DataFrame) (filters : List (String × Cell)) : QueryResponseL :=
  let rows := filters.foldl
    (fun rs f => if df.hasCol f.1 then rs.filter (fun r => cellEqPy (rowGet r f.1) f.2) else rs)
    (dfRecords df)
  if rows.isEmpty || df.cols.isEmpty then
    { sender := "ai",
      text := "No data matches the specified filters. Try adjusting your criteria.",
      data := none, chart := none }
  else
    { sender := "ai",
      text := "Found " ++ toString rows.length ++ " matching records. Showing the first 20:",
      data := some (.table (rows.take 20)), chart := none }

/- ----------------------------------------------------------------
   QueryProcessor._compare_columns
   ---------------------------------------------------------------- -/

def numStatsRow (c : Column) : Row :=
  [("Column", Cell.text c.name),
   ("Mean", optQCell (colMean c)),
   ("Median", optQCell (medianQ (colQs c))),
   ("Std Dev", optQCell (varianceQ (colQs c))),
   ("Min", optQCell (colMin c)),
   ("Max", optQCell (colMax c))]

def catStatsRow (c : Column) : Row :=
  [("Column", Cell.text c.name),
   ("Unique Values", Cell.float (countUnique c : Q)),
   ("Most Common", Cell.text (match colMode c with
     | some v => cellToStr v
     | none => "N/A")),
   ("Missing Values", Cell.float (nullCount c : Q))]

/-- `df[[x, y]].dropna().to_dict("records")`: the rows where both columns
are non-null. -/
def completeXY (cx cy : Column) : List Row :=
  (cx.values.zip cy.values).filterMap (fun p =>
    if p.1 ≠ Cell.null ∧ p.2 ≠ Cell.null then some [(cx.name, p.1), (cy.name, p.2)] else none)

/-- `QueryProcessor._compare_columns`.  The length guard runs before the
validity filter, exactly as in the source; `sample(min(100, max(1,
len(df))))` raises when the dropna pool is smaller than the requested
sample, which surfaces here as `Except.error`. -/
def compare_columns (df : DataFrame) (columns0 : List String) : Except String QueryResponseL :=
  if columns0.length < 2 then
    .ok { sender := "ai", text := "Please specify at least two columns to compare.",
          data := none, chart := none }
  else
    let colObjs := (columns0.filterMap (fun n => df.findCol n)).take 3
    let numericObjs := colObjs.filter (fun c => isNumericDtype c.dtype)
    let catObjs := colObjs.filter (fun c => !isNumericDtype c.dtype)
    let dataRows := numericObjs.map numStatsRow ++ catObjs.map catStatsRow
    let respText := "Comparison of " ++ String.intercalate ", " (colObjs.map (fun c => c.name)) ++ ":"
    match numericObjs with
    | cx :: cy :: _ =>
      let pool := completeXY cx cy
      let n := min 100 (max 1 df.nrows)
      if n ≤ pool.length then
        .ok { sender := "ai", text := respText, data := some (.table dataRows),
              chart := some { type := "line", data := pool.take n, x_axis := cx.name,
                              y_axis := cy.name,
                              title := "Comparison: " ++ cx.name ++ " vs " ++ cy.name } }
      else .error "Cannot take a larger sample than population"
    | _ =>
      .ok { sender := "ai", text := respText, data := some (.table dataRows), chart := none }

/- ----------------------------------------------------------------
   QueryProcessor._find_correlations
   ---------------------------------------------------------------- -/

/-- The correlation statistics of two columns over their pairwise-complete
observations: (n*Sxy - Sx*Sy, (n*Sxx - Sx^2)*(n*Syy - Sy^2)).  Pearson r is
the first over the square root of the second; pandas yields NaN exactly
when the second is 0 (fewer than 2 observations or a zero variance). -/
def pairStats (xs ys : List Cell) : Q × Q :=
  let ps := (xs.zip ys).filterMap (fun p =>
    match cellQ p.1, cellQ p.2 with
    | some a, some b => some (a, b)
    | _, _ => none)
  let n : Q := (ps.length : Q)
  let sx := ps.foldl (fun a p => a + p.1) 0
  let sy := ps.foldl (fun a p => a + p.2) 0
  let sxx := ps.foldl (fun a p => a + p.1 * p.1) 0
  let syy := ps.foldl (fun a p => a + p.2 * p.2) 0
  let sxy := ps.foldl (fun a p => a + p.1 * p.2) 0
  (n * sxy - sx * sy, (n * sxx - sx * sx) * (n * syy - sy * sy))

/-- One candidate pair: |r| > 0.7 is num^2/den > 49/100. -/
def mkCorrEntry (c d : Column) : CorrEntry :=
  { col1 := c.name, col2 := d.name,
    num := (pairStats c.values d.values).1, den := (pairStats c.values d.values).2,
    strength :=
      if 100 * ((pairStats c.values d.values).1 * (pairStats c.values d.values).1) >
          49 * (pairStats c.values d.values).2 then "Strong" else "Moderate" }

/-- The unordered pairs i < j in the source's loop order. -/
def corrPairs : List Column → List CorrEntry
  | [] => []
  | c :: rest => rest.map (fun d => mkCorrEntry c d) ++ corrPairs rest

/-- `pd.notna(corr) and abs(corr) > 0.5`: den positive and num^2/den >
1/4. -/
def qualifies (e : CorrEntry) : Bool := Q.blt 0 e.den && Q.blt e.den (4 * (e.num * e.num))

/-- abs(r)^2, the descending sort key (monotone in abs(r)). -/
def corrKey (e : CorrEntry) : Q := (e.num * e.num) / e.den

def corrDescLe (a b : CorrEntry) : Bool := Q.ble (corrKey b) (corrKey a)

/-- `QueryProcessor._find_correlations`. -/
def find_correlations (df : DataFrame) : QueryResponseL :=
  let numeric := selectNumber df
  if numeric.isEmpty then
    { sender := "ai", text := "No numeric columns found for correlation analysis.",
      data := none, chart := none }
  else
    let strong := (corrPairs numeric).filter qualifies
    let sorted := List.insertionSort (fun a b => corrDescLe a b = true) strong
    if strong.isEmpty then
      { sender := "ai",
        text := "No strong correlations found between numeric columns (threshold: |r| > 0.5).",
        data := none, chart := none }
    else
      { sender := "ai",
        text := "Found " ++ toString strong.length ++ " significant correlations:",
        data := some (.correlations (sorted.take 10)), chart := none }

/- ----------------------------------------------------------------
   QueryProcessor._create_visualization
   ---------------------------------------------------------------- -/

/-- A display order on cells, used only where pandas sorts group keys. -/
def cellRank : Cell → Nat
  | .null => 0
  | .bool _ => 1
  | .float _ => 2
  | .timestamp _ => 3
  | .text _ => 4

def cellLe (a b : Cell) : Bool :=
  match a, b with
  | .float x, .float y => decide (x ≤ y)
  | .bool x, .bool y => !x || y
  | .text x, .text y => decide (x ≤ y)
  | .timestamp x, .timestamp y => decide (x ≤ y)
  | x, y => cellRank x ≤ cellRank y

/-- `value_counts()`: distinct values with their counts, most frequent
first (stable on ties). -/
def valueCountsDesc {α : Type} [BEq α] (l : List α) : List (α × Nat) :=
  List.insertionSort (fun a b => b.2 ≤ a.2) ((l.eraseDups).map (fun v => (v, l.count v)))

/-- `value_counts()` over cells, with pandas value equality. -/
def cellValueCounts (l : List Cell) : List (Cell × Nat) :=
  List.insertionSort (fun a b => b.2 ≤ a.2)
    ((dedupBy cellBeq l).map (fun v => (v, l.countP (fun x => cellBeq x v))))

/-- The label of one of the 10 equal-width bins (pandas renders a
right-closed interval; only the row count and field names feed any
claim). -/
def binLabel (lo w : Q) (i : Nat) : String :=
  "(" ++ floatRepr (lo + w * (i : Q)) ++ ", " ++ floatRepr (lo + w * ((i : Q) + 1)) ++ "]"

/-- `value_counts(bins=10)` on a numeric column: 10 equal-width bins over
[min, max] (pandas widens a degenerate range), counts sorted descending.
On a column with no non-null values `pd.cut` raises. -/
def vizSingleNumeric (c : Column) : Except String (List Row × String × String) :=
  let qs := colQs c
  match qMin? qs, qMax? qs with
  | some lo, some hi =>
    let w := if Q.beq hi lo then 1 else (hi - lo) / 10
    let idxs := qs.map (fun v => min 9 (Q.floorInt ((v - lo) / w)).toNat)
    let counted := valueCountsDesc idxs
    .ok (((counted.map (fun p =>
            [("range", Cell.text (binLabel lo w p.1)), ("count", Cell.float (p.2 : Q))])).take 20),
         "range", "count")
  | _, _ => .error "bins must be of non-zero size"

/-- `value_counts()` on a non-numeric column: counts of the non-null
values, top 10. -/
def vizSingleCat (c : Column) : List Row × String × String :=
  let counted := cellValueCounts (c.values.filter (fun v => v ≠ Cell.null))
  (((counted.map (fun p => [(c.name, p.1), ("count", Cell.float (p.2 : Q))])).take 10),
   c.name, "count")

/-- The aggregated value of one group for the five named reductions. -/
def aggVal (operation : String) (ys : List Cell) : Cell :=
  let qs := ys.filterMap cellQ
  if operation = "sum" then Cell.float (qSum qs)
  else if operation = "mean" then optQCell (if qs.length = 0 then none else some (qSum qs / (qs.length : Q)))
  else if operation = "count" then Cell.float ((ys.countP (fun v => v ≠ Cell.null) : Q))
  else if operation = "max" then optQCell (qMax? qs)
  else if operation = "min" then optQCell (qMin? qs)
  else Cell.null

/-- One group's row under `agg("describe")` (std and quartiles omitted as
irrational displays; no claim reads these rows). -/
def describeGroupRow (xName : String) (k : Cell) (ys : List Cell) : Row :=
  let qs := ys.filterMap cellQ
  [(xName, k),
   ("count", Cell.float ((ys.countP (fun v => v ≠ Cell.null) : Q))),
   ("mean", optQCell (if qs.length = 0 then none else some (qSum qs / (qs.length : Q)))),
   ("min", optQCell (qMin? qs)),
   ("max", optQCell (qMax? qs))]

/-- `df.groupby(x)[y].agg(operation).reset_index().head(20)`: null keys are
dropped, keys sorted ascending; an operation pandas does not know raises. -/
def groupByAgg (cx cy : Column) (operation : String) : Except String (List Row) :=
  let pairs := (cx.values.zip cy.values).filter (fun p => p.1 ≠ Cell.null)
  let keys := List.insertionSort (fun a b => cellLe a b = true) (dedupBy cellBeq (pairs.map (fun p => p.1)))
  let ysOf := fun (k : Cell) => (pairs.filter (fun p => cellBeq p.1 k)).map (fun p => p.2)
  if operation = "sum" ∨ operation = "mean" ∨ operation = "count" ∨
      operation = "max" ∨ operation = "min" then
    .ok ((keys.map (fun k => [(cx.name, k), (cy.name, aggVal operation (ysOf k))])).take 20)
  else if operation = "describe" then
    .ok ((keys.map (fun k => describeGroupRow cx.name k (ysOf k))).take 20)
  else .error ("unknown aggregation function " ++ operation)

/-- `df.groupby([x, y]).size().reset_index(name="count").head(20)`: rows
with a null in either key are dropped; key pairs sorted ascending. -/
def groupPairs (cx cy : Column) : List Row :=
  let pairs := (cx.values.zip cy.values).filter (fun p => p.1 ≠ Cell.null && p.2 ≠ Cell.null)
  let keys := List.insertionSort
    (fun a b => (cellLe a.1 b.1 && (!cellBeq a.1 b.1 || cellLe a.2 b.2)) = true)
    (dedupBy (fun a b => cellBeq a.1 b.1 && cellBeq a.2 b.2) pairs)
  ((keys.map (fun k =>
    [(cx.name, k.1), (cy.name, k.2),
     ("count", Cell.float ((pairs.countP (fun p => cellBeq p.1 k.1 && cellBeq p.2 k.2) : Q)))])).take 20)

/-- The chart data, x axis and y axis of `_create_visualization`, per the
source's column-count cases.  With no columns at all the tuple unpacking
`x_col, y_col = columns[:2]` raises. -/
def vizCore (df : DataFrame) (columns : List String) (operation : String) :
    Except String (List Row × String × String) :=
  match columns with
  | [] => .error "not enough values to unpack"
  | [c] =>
    match df.findCol c with
    | some col => if isNumericDtype col.dtype then vizSingleNumeric col else .ok (vizSingleCat col)
    | none => .error "KeyError"
  | c1 :: c2 :: _ =>
    match df.findCol c1, df.findCol c2 with
    | some cx, some cy =>
      if isNumericDtype cy.dtype then
        if !isNumericDtype cx.dtype then
          (groupByAgg cx cy operation).map (fun rows => (rows, cx.name, cy.name))
        else
          .ok ((completeXY cx cy).take 200, cx.name, cy.name)
      else
        .ok (groupPairs cx cy, cx.name, "count")
    | _, _ => .error "KeyError"

/-- The no-hint chart-type choice: at most 5 rows is a pie; else line when
the first column is numeric; else bar. -/
def inferChartType (df : DataFrame) (columns : List String) (chartData : List Row) : String :=
  if chartData.length ≤ 5 then "pie"
  else if (match columns with
           | c :: _ => match df.findCol c with
             | some col => isNumericDtype col.dtype
             | none => false
           | [] => false) then "line"
  else "bar"

/-- The column-defaulting of `_create_visualization`: empty request falls
back to the first two columns, absent names are dropped, and an empty
remainder falls back to the first two columns again. -/
def vizColumns (df : DataFrame) (columns0 : List String) : List String :=
  let columns1 := if columns0.isEmpty then df.colNames.take 2 else columns0
  let columns2 := columns1.filter (fun c => df.hasCol c)
  if columns2.isEmpty then df.colNames.take 2 else columns2

/-- The chart type actually used: a falsy `chart_type` (absent or empty) is
replaced by the inferred one; a truthy one is used as given. -/
def vizChartType (df : DataFrame) (columns : List String) (chartType0 : Option String)
    (chartData : List Row) : String :=
  match chartType0 with
  | some t => if t = "" then inferChartType df columns chartData else t
  | none => inferChartType df columns chartData

/-- The response `_create_visualization` assembles from the chart data. -/
def vizResponse (df : DataFrame) (columns : List String) (chartType0 : Option String)
    (chartData : List Row) (xAxis yAxis : String) : QueryResponseL :=
  let ctype := vizChartType df columns chartType0 chartData
  { sender := "ai",
    text := "Here's a " ++ ctype ++ " chart showing " ++ yAxis ++ " by " ++ xAxis ++
            ". Showing up to " ++ toString chartData.length ++ " items.",
    data := none,
    chart := some { type := ctype, data := chartData, x_axis := xAxis, y_axis := yAxis,
                    title := yAxis ++ " by " ++ xAxis } }

/-- `QueryProcessor._create_visualization`. -/
def create_visualization (df : DataFrame) (columns0 : List String)
    (chartType0 : Option String) (operation : String) : Except String QueryResponseL :=
  match vizCore df (vizColumns df columns0) operation with
  | .error e => .error e
  | .ok (chartData, xAxis, yAxis) =>
    .ok (vizResponse df (vizColumns df columns0) chartType0 chartData xAxis yAxis)

/- ----------------------------------------------------------------
   QueryProcessor._summarize_data
   ---------------------------------------------------------------- -/

def dtypeName : DType → String
  | .float => "float64"
  | .object => "object"
  | .datetime => "datetime64[ns]"
  | .bool => "bool"

/-- One column's row of the summary table the source computes but does not
return (kept for fidelity; the response carries the sample rows). -/
def summaryRow (c : Column) : Row :=
  [("Column", Cell.text c.name),
   ("Type", Cell.text (dtypeName c.dtype)),
   ("Non-Null Count", Cell.float ((colCount c : Q))),
   ("Null Count", Cell.float ((nullCount c : Q))),
   ("Unique Values", Cell.float ((countUnique c : Q)))] ++
  (if isNumericDtype c.dtype then
    [("Mean", if colCount c > 0 then optQCell ((colMean c).map roundQ2) else Cell.null),
     ("Min", if colCount c > 0 then optQCell ((colMin c).map roundQ2) else Cell.null),
     ("Max", if colCount c > 0 then optQCell ((colMax c).map roundQ2) else Cell.null)]
  else
    [("Most Common", Cell.text (match colMode c with
      | some v => cellToStr v
      | none => "N/A"))])

/-- `QueryProcessor._summarize_data`. -/
def summarize_data (df : DataFrame) (columns0 : List String) : QueryResponseL :=
  let columns1 := if columns0.isEmpty then df.colNames else columns0
  let columns := (columns1.filter (fun c => df.hasCol c)).take 5
  let chosen := columns.filterMap (fun n => df.findCol n)
  let _summary := chosen.map summaryRow
  let sample := ((List.range df.nrows).map
    (fun i => chosen.map (fun c => (c.name, c.values.getD i Cell.null)))).take 10
  { sender := "ai",
    text := "Summary of " ++ String.intercalate ", " columns ++ ":",
    data := some (.table sample), chart := none }

/- ----------------------------------------------------------------
   QueryProcessor._execute_intent
   ---------------------------------------------------------------- -/

/-- Python truthiness of the `chart_type` field: present and non-empty. -/
def chartTruthy : Option String → Bool
  | none => false
  | some s => s ≠ ""

/-- The response the router's except-clause builds from a handler
exception. -/
def errorResponse (e : String) : QueryResponseL :=
  { sender := "ai",
    text := "I encountered an error processing your request: " ++ e ++
            ". Could you please rephrase your question?",
    data := none, chart := none }

/-- The dispatch inside the router's try-block: visualization wins whenever
the intent is `visualize` or any chart type was supplied; unrecognized
intents summarize. -/
def routed (df : DataFrame) (intent : IntentDict) : Except String QueryResponseL :=
  if intent.intent = "visualize" ∨ chartTruthy intent.chart_type then
    create_visualization df intent.columns intent.chart_type intent.operation
  else if intent.intent = "aggregate" then
    .ok (perform_aggregation df intent.columns intent.operation)
  else if intent.intent = "filter" then
    .ok (filter_data df intent.filters)
  else if intent.intent = "compare" then
    compare_columns df intent.columns
  else if intent.intent = "correlation" then
    .ok (find_correlations df)
  else
    .ok (summarize_data df intent.columns)

/-- `QueryProcessor._execute_intent`: the dispatch wrapped in the
router-boundary try/except (`query` is unused by the source's body). -/
def execute_intent (df : DataFrame) (intent : IntentDict) (_query : String) : QueryResponseL :=
  match routed df intent with
  | .ok r => r
  | .error e => errorResponse e

/- ----------------------------------------------------------------
   Concrete frames and projections used by the claim theorems
   ---------------------------------------------------------------- -/

/-- Raw columns named a, a, a_1: the second "a" is renamed to "a_1" by the
duplicate pass and collides with the existing third column. -/
def dfDupNames : DataFrame :=
  ⟨[⟨"a", .object, [.text "x"]⟩, ⟨"a", .object, [.text "y"]⟩, ⟨"a_1", .object, [.text "z"]⟩]⟩

/-- One text column holding the literal string "nan". -/
def dfLiteralNan : DataFrame := ⟨[⟨"a", .object, [.text "nan"]⟩]⟩

/-- One text column holding "x" and the literal string "nan". -/
def dfTextNan : DataFrame := ⟨[⟨"a", .object, [.text "x", .text "nan"]⟩]⟩

/-- Two perfectly anti-correlated numeric columns (r = -1). -/
def dfAnti : DataFrame :=
  ⟨[⟨"x", .float, [.float 1, .float 2, .float 3]⟩, ⟨"y", .float, [.float 3, .float 2, .float 1]⟩]⟩

/-- Two numeric columns, used to drive the two-numeric visualization and
comparison paths. -/
def dfTwoFloat : DataFrame :=
  ⟨[⟨"a", .float, [.float 1, .float 2]⟩, ⟨"b", .float, [.float 3, .float 4]⟩]⟩

/-- A text column in which exactly 50% of the values parse as numbers. -/
def dfHalfNumeric : DataFrame := ⟨[⟨"a", .object, [.text "2", .text "x"]⟩]⟩

/-- One already-clean numeric column. -/
def dfOneFloat : DataFrame := ⟨[⟨"a", .float, [.float 1, .float 2]⟩]⟩

/-- The chart type a handler produced, when it returned one. -/
def okChartType (e : Except String QueryResponseL) : Option String :=
  match e with
  | .ok r => r.chart.map (fun ch => ch.type)
  | .error _ => none

/-- The response text a handler produced, when it did not raise. -/
def okText (e : Except String QueryResponseL) : Option String :=
  match e with
  | .ok r => some r.text
  | .error _ => none


/-- No two rows are equal under pandas value equality (the form of
row-distinctness `drop_duplicates` tests). -/
def pairwiseDistinctRows : List (List Cell) → Bool
  | [] => true
  | r :: rest => rest.all (fun s => !rowCellsBeq r s) && pairwiseDistinctRows rest

/- ================================================================
   Theorems.  Generic helpers first, then one theorem per claim.
   ================================================================ -/

theorem ne_empty_of_data_ne {s : String} (h : s.data ≠ []) : s ≠ "" := by
  intro hc
  rw [hc] at h
  exact h rfl

theorem data_append_ne {a b : String} (h : a.data ≠ []) : (a ++ b).data ≠ [] := by
  rw [String.data_append]
  intro hc
  exact h (List.append_eq_nil.mp hc).1

theorem perform_aggregation_text_ne (df : DataFrame) (cs : List String) (op : String) :
    (perform_aggregation df cs op).text ≠ "" := by
  simp only [perform_aggregation]
  split <;> split
  all_goals first
    | decide
    | · refine ne_empty_of_data_ne (data_append_ne (data_append_ne ?_))
        decide

theorem filter_data_text_ne (df : DataFrame) (fs : List (String × Cell)) :
    (filter_data df fs).text ≠ "" := by
  simp only [filter_data]
  split
  all_goals first
    | decide
    | · refine ne_empty_of_data_ne (data_append_ne (data_append_ne ?_))
        decide

theorem summarize_data_text_ne (df : DataFrame) (cs : List String) :
    (summarize_data df cs).text ≠ "" := by
  unfold summarize_data
  refine ne_empty_of_data_ne (data_append_ne (data_append_ne ?_))
  decide

theorem find_correlations_text_ne (df : DataFrame) :
    (find_correlations df).text ≠ "" := by
  simp only [find_correlations]
  split
  · decide
  · split
    · decide
    · refine ne_empty_of_data_ne (data_append_ne (data_append_ne ?_))
      decide

theorem compare_columns_ok_text (df : DataFrame) (cs : List String) (r : QueryResponseL)
    (h : compare_columns df cs = .ok r) : r.text ≠ "" := by
  simp only [compare_columns] at h
  split at h
  · injection h with h'
    subst h'
    decide
  · split at h
    · split at h
      · injection h with h'
        subst h'
        refine ne_empty_of_data_ne (data_append_ne (data_append_ne ?_))
        decide
      · exact absurd h (by simp)
    · injection h with h'
      subst h'
      refine ne_empty_of_data_ne (data_append_ne (data_append_ne ?_))
      decide

theorem vizResponse_text_ne (df : DataFrame) (cols : List String) (ct : Option String)
    (cd : List Row) (xa ya : String) : (vizResponse df cols ct cd xa ya).text ≠ "" := by
  simp only [vizResponse]
  refine ne_empty_of_data_ne ?_
  repeat refine data_append_ne ?_
  decide

theorem create_visualization_ok_text (df : DataFrame) (cs : List String)
    (ct : Option String) (op : String) (r : QueryResponseL)
    (h : create_visualization df cs ct op = .ok r) : r.text ≠ "" := by
  unfold create_visualization at h
  rcases hv : vizCore df (vizColumns df cs) op with e | ⟨cd, xa, ya⟩ <;> rw [hv] at h
  · exact absurd h (by simp)
  · injection h with h'
    subst h'
    exact vizResponse_text_ne _ _ _ _ _ _

theorem routed_ok_text (df : DataFrame) (it : IntentDict) (r : QueryResponseL)
    (h : routed df it = .ok r) : r.text ≠ "" := by
  unfold routed at h
  split at h
  · exact create_visualization_ok_text _ _ _ _ _ h
  · split at h
    · injection h with h'
      subst h'
      exact perform_aggregation_text_ne _ _ _
    · split at h
      · injection h with h'
        subst h'
        exact filter_data_text_ne _ _
      · split at h
        · exact compare_columns_ok_text _ _ _ h
        · split at h
          · injection h with h'
            subst h'
            exact find_correlations_text_ne _
          · injection h with h'
            subst h'
            exact summarize_data_text_ne _ _

/-- C1: for every Dataset and every StructuredIntent (with any query text),
the intent-execution router's execute operation never raises to its caller:
it is a total function into QueryResponse (handler exceptions are the
`Except.error` values caught at the router boundary and turned into the
apology response), and on every execution path the returned text field is a
non-empty string. -/
theorem execute_intent_total_nonempty (df : DataFrame) (it : IntentDict) (q : String) :
    (execute_intent df it q).text ≠ "" := by
  unfold execute_intent
  rcases hr : routed df it with e | r
  · unfold errorResponse
    refine ne_empty_of_data_ne (data_append_ne (data_append_ne ?_))
    decide
  · exact routed_ok_text df it r hr

theorem countP_lt_length_exists {α : Type} (p : α → Bool) (l : List α)
    (h : l.countP p < l.length) : ∃ v ∈ l, ¬ p v = true := by
  by_contra hc
  have : l.countP p = l.length := by
    refine List.countP_eq_length.mpr ?_
    intro a ha
    by_contra hpa
    exact hc ⟨a, ha, hpa⟩
  omega

theorem missingStep_length {n : Nat} {c c' : Column} (h : missingStep n c = some c') :
    c'.values.length = c.values.length := by
  simp only [missingStep] at h
  repeat' split at h
  all_goals try exact Option.noConfusion h
  all_goals injection h with h'
  all_goals subst h'
  all_goals simp

theorem missingStep_nonnull {n : Nat} {c c' : Column} (h : missingStep n c = some c')
    (hlen : c.values.length = n) :
    c'.values.countP (fun v => v == Cell.null) < c'.values.length := by
  have hle := List.countP_le_length (fun v => v == Cell.null) (l := c.values)
  have hcc : c.values.countP (fun v => v == Cell.null) = nullCount c := rfl
  simp only [missingStep] at h
  repeat' split at h
  all_goals try exact Option.noConfusion h
  all_goals injection h with h'
  all_goals subst h'
  all_goals try omega
  all_goals
    (refine Nat.lt_of_le_of_lt (Nat.le_of_eq (List.countP_eq_zero.mpr ?_)) ?_
     · intro a ha
       simp only [List.mem_map] at ha
       obtain ⟨v, hv, rfl⟩ := ha
       by_cases hvn : v = Cell.null
       · simp [hvn]
       · simp [hvn]
     · simp only [List.length_map]
       omega)

theorem maskFilter_getElem_mem {α : Type} (l : List α) (mask : List Bool) (i : Nat)
    (hi : i < l.length) (him : i < mask.length) (hm : mask[i] = true) :
    l[i] ∈ maskFilter l mask := by
  induction l generalizing mask i with
  | nil => simp at hi
  | cons x xs ih =>
    cases mask with
    | nil => simp at him
    | cons b bs =>
      cases i with
      | zero =>
        simp only [List.getElem_cons_zero] at hm ⊢
        subst hm
        simp [maskFilter]
      | succ j =>
        simp only [List.getElem_cons_succ] at hm ⊢
        have hmem := ih bs j (by simpa using hi) (by simpa using him) hm
        simp only [maskFilter]
        split
        · exact List.mem_cons_of_mem _ hmem
        · exact hmem

/-- C3 (amended): the missing-value-resolution stage itself never leaves a
100%-null column: every column it returns still holds at least one
non-null value (all-null and >90%-null columns are dropped, and the
all-null row drop preserves each column's non-null witnesses).  The claim
as stated — about the end of `clean` — fails, because text standardization
runs afterwards and maps literal "nan"/"NULL"/... strings to the missing
marker, which can make a surviving column 100% null; see the
counterexample. -/
theorem handle_missing_values_no_all_null (df : DataFrame) (hwf : df.wfb = true) :
    ∀ c ∈ (handle_missing_values df).cols, ∃ v ∈ c.values, v ≠ Cell.null := by
  intro c hc
  unfold handle_missing_values dropAllNullRows applyMask at hc
  simp only [List.mem_map] at hc
  obtain ⟨c2, hc2, rfl⟩ := hc
  have hc2' : c2 ∈ df.cols.filterMap (missingStep df.nrows) := hc2
  obtain ⟨c0, hc0, hms⟩ := List.mem_filterMap.mp hc2'
  have hlen0 : c0.values.length = df.nrows := by
    simpa using List.all_eq_true.mp hwf c0 hc0
  have hlen2 : c2.values.length = df.nrows := (missingStep_length hms).trans hlen0
  have hcount := missingStep_nonnull hms hlen0
  obtain ⟨v, hv, hvn⟩ := countP_lt_length_exists _ _ hcount
  obtain ⟨i, hi, rfl⟩ := List.mem_iff_getElem.mp hv
  have hall : ∀ d ∈ (⟨df.cols.filterMap (missingStep df.nrows)⟩ : DataFrame).cols,
      d.values.length = df.nrows := by
    intro d hd
    obtain ⟨d0, hd0, hmd⟩ := List.mem_filterMap.mp hd
    have : d0.values.length = df.nrows := by simpa using List.all_eq_true.mp hwf d0 hd0
    exact (missingStep_length hmd).trans this
  have hnrows : ∀ (l : List Column), (∀ d ∈ l, d.values.length = df.nrows) → l ≠ [] →
      (DataFrame.mk l).nrows = df.nrows := by
    intro l hl hne
    cases l with
    | nil => exact absurd rfl hne
    | cons d ds => exact hl d (List.mem_cons_self d ds)
  have hn2 : (⟨df.cols.filterMap (missingStep df.nrows)⟩ : DataFrame).nrows = df.nrows :=
    hnrows _ hall (List.ne_nil_of_mem hc2')
  refine ⟨c2.values[i], ?_, by simpa using hvn⟩
  have hilt : i < (⟨df.cols.filterMap (missingStep df.nrows)⟩ : DataFrame).nrows := by
    rw [hn2]
    omega
  have hmlen : ((List.range (⟨df.cols.filterMap (missingStep df.nrows)⟩ : DataFrame).nrows).map
      (fun i => (⟨df.cols.filterMap (missingStep df.nrows)⟩ : DataFrame).cols.any
        (fun c => c.values.getD i Cell.null ≠ Cell.null))).length
      = (⟨df.cols.filterMap (missingStep df.nrows)⟩ : DataFrame).nrows := by
    simp
  refine maskFilter_getElem_mem _ _ i hi (by rw [hmlen]; exact hilt) ?_
  simp only [List.getElem_map, List.getElem_range]
  refine List.any_eq_true.mpr ⟨c2, hc2', ?_⟩
  have : c2.values.getD i Cell.null = c2.values[i] := List.getD_eq_getElem _ _ hi
  rw [this]
  simpa using hvn

theorem handle_missing_values_no_all_null_witness :
    dfTextNan.wfb = true ∧
      ∀ c ∈ (handle_missing_values dfTextNan).cols, ∃ v ∈ c.values, v ≠ Cell.null :=
  ⟨by decide, handle_missing_values_no_all_null dfTextNan (by decide)⟩

/-- C3 (counterexample): cleaning a table whose one text column holds the
literal string "nan" returns a Dataset in which that column appears and is
100% null — text standardization (which runs after missing-value
resolution) turned the literal into the missing marker. -/
theorem clean_dataframe_emits_all_null_column :
    (clean_dataframe dfLiteralNan).cols = [⟨"a", DType.object, [Cell.null]⟩] ∧
      ∃ c ∈ (clean_dataframe dfLiteralNan).cols,
        c.values ≠ [] ∧ ∀ v ∈ c.values, v = Cell.null := by
  decide

/-- C2: the uniqueness half of the claim fails on the code.  On raw columns
named a, a, a_1 the duplicate-name pass renames the second "a" to "a_1",
which collides with the existing third column, so the cleaned frame's
names are a, a_1, a_1 — not pairwise distinct.  (In the source this then
breaks the following stage too: `df[col].dtype` on a duplicated label
raises.)  This theorem evaluates the embedded `_clean_column_names` at
that failing input. -/
theorem clean_column_names_duplicate_collision :
    (clean_column_names dfDupNames).colNames = ["a", "a_1", "a_1"] ∧
      ¬ ((clean_column_names dfDupNames).colNames).Nodup := by
  decide

/-- C4: the visualization handler does not remap a requested chart type.
With `chart_type="scatter"` supplied (as the model-based classifier path
may do — its prompt offers "scatter"), the returned ChartSpec's type is
"scatter", not one of bar/line/pie: the sanitization happens only when no
chart type was requested.  This theorem evaluates the embedded
`_create_visualization` at that failing input. -/
theorem create_visualization_passes_scatter_through :
    okChartType (create_visualization dfTwoFloat ["a", "b"] (some "scatter") "mean")
        = some "scatter" ∧
      ("scatter" ∈ (["bar", "line", "pie"] : List String)) = False := by
  decide

theorem unnamed_foldl_no_unnamed (cols : List Column) :
    ∀ (k : Nat) (acc : List Column), (∀ c ∈ cols, containsSub c.name "Unnamed" = false) →
      cols.foldl unnamedStep (k, acc) = (k, acc ++ cols) := by
  induction cols with
  | nil =>
    intro k acc _
    simp
  | cons c cs ih =>
    intro k acc h
    have hc : containsSub c.name "Unnamed" = false := h c (List.mem_cons_self _ _)
    have hstep : unnamedStep (k, acc) c = (k, acc ++ [c]) := by
      unfold unnamedStep
      rw [hc]
      simp
    simp only [List.foldl_cons, hstep]
    rw [ih k (acc ++ [c]) (fun d hd => h d (List.mem_cons_of_mem _ hd))]
    simp

theorem handle_unnamed_noop (df : DataFrame)
    (h : ∀ c ∈ df.cols, containsSub c.name "Unnamed" = false) :
    handle_unnamed_columns df = df := by
  unfold handle_unnamed_columns
  rw [unnamed_foldl_no_unnamed df.cols 0 [] h]
  rfl

theorem dupMarks_nil (names : List String) :
    ∀ seen, names.Nodup → (∀ x ∈ names, x ∉ seen) → dupMarks seen names = [] := by
  induction names with
  | nil =>
    intro seen _ _
    rfl
  | cons x xs ih =>
    intro seen hnd hdis
    unfold dupMarks
    have hx : seen.contains x = false := by
      have := hdis x (List.mem_cons_self _ _)
      simpa using this
    rw [hx]
    simp only [Bool.false_eq_true, if_false]
    refine ih (x :: seen) (List.Nodup.of_cons hnd) ?_
    intro y hy
    have hyx : y ≠ x := by
      intro hcontra
      subst hcontra
      exact (List.nodup_cons.mp hnd).1 hy
    have hyseen : y ∉ seen := hdis y (List.mem_cons_of_mem _ hy)
    simp [hyx, hyseen]

theorem dedupNames_nodup (names : List String) (h : names.Nodup) : dedupNames names = names := by
  unfold dedupNames dupList
  rw [dupMarks_nil names [] h (by simp)]
  rfl

theorem zipWith_self_names (cols : List Column) :
    cols.zipWith (fun c n => { c with name := n }) (cols.map (fun c => c.name)) = cols := by
  induction cols with
  | nil => rfl
  | cons c cs ih =>
    simp only [List.map_cons, List.zipWith_cons_cons, ih]

theorem clean_column_names_noop (df : DataFrame)
    (hfix : ∀ c ∈ df.cols, clean_column_name c.name = c.name)
    (hnd : df.colNames.Nodup) :
    clean_column_names df = df := by
  unfold clean_column_names
  unfold DataFrame.colNames at hnd
  rw [List.map_congr_left hfix, dedupNames_nodup _ hnd]
  simp only [zipWith_self_names]

theorem convert_column_nonobject {n : Nat} {c : Column} (h : c.dtype ≠ DType.object) :
    convert_column n c = c := by
  unfold convert_column
  rw [if_pos h]

theorem detect_noop (df : DataFrame) (h : ∀ c ∈ df.cols, c.dtype = DType.float) :
    detect_and_convert_types df = df := by
  unfold detect_and_convert_types
  have hmap : df.cols.map (convert_column df.nrows) = df.cols.map id := by
    refine List.map_congr_left ?_
    intro c hc
    have hd := h c hc
    simp only [id]
    exact convert_column_nonobject (by rw [hd]; decide)
  rw [hmap, List.map_id]

theorem missingStep_no_null {n : Nat} {c : Column} (hn : n ≠ 0)
    (h0 : nullCount c = 0) : missingStep n c = some c := by
  unfold missingStep
  rw [h0]
  rw [if_neg (by omega)]
  rw [if_neg (by omega)]

theorem filterMap_missing_id (n : Nat) (cols : List Column) (hn : n ≠ 0)
    (h : ∀ c ∈ cols, nullCount c = 0) : cols.filterMap (missingStep n) = cols := by
  induction cols with
  | nil => rfl
  | cons c cs ih =>
    rw [List.filterMap_cons, missingStep_no_null hn (h c (List.mem_cons_self _ _))]
    rw [ih (fun d hd => h d (List.mem_cons_of_mem _ hd))]

theorem maskFilter_replicate_true {α : Type} (l : List α) (n : Nat) (h : l.length = n) :
    maskFilter l (List.replicate n true) = l := by
  induction l generalizing n with
  | nil =>
    cases n with
    | zero => rfl
    | succ m => rfl
  | cons x xs ih =>
    cases n with
    | zero => simp at h
    | succ m =>
      simp only [List.replicate_succ, maskFilter, if_true]
      rw [ih m (by simpa using h)]

theorem dropAllNullRows_noop (df : DataFrame) (hwf : df.wfb = true)
    (hne : df.cols ≠ [])
    (hnn : ∀ c ∈ df.cols, ∀ v ∈ c.values, v ≠ Cell.null) :
    dropAllNullRows df = df := by
  unfold dropAllNullRows applyMask
  have hmask : (List.range df.nrows).map
      (fun i => df.cols.any (fun c => c.values.getD i Cell.null ≠ Cell.null))
      = List.replicate df.nrows true := by
    refine List.eq_replicate_iff.mpr ⟨by simp, ?_⟩
    intro b hb
    simp only [List.mem_map, List.mem_range] at hb
    obtain ⟨i, hi, rfl⟩ := hb
    refine List.any_eq_true.mpr ?_
    obtain ⟨c0, hc0⟩ := List.exists_mem_of_ne_nil df.cols hne
    refine ⟨c0, hc0, ?_⟩
    have hl : c0.values.length = df.nrows := by simpa using List.all_eq_true.mp hwf c0 hc0
    have hilt : i < c0.values.length := by omega
    rw [List.getD_eq_getElem _ _ hilt]
    exact decide_eq_true (hnn c0 hc0 _ (List.getElem_mem hilt))
  rw [hmask]
  have hmap : df.cols.map (fun c => { c with values := maskFilter c.values (List.replicate df.nrows true) })
      = df.cols.map id := by
    refine List.map_congr_left ?_
    intro c hc
    have hl : c.values.length = df.nrows := by simpa using List.all_eq_true.mp hwf c hc
    simp only [id]
    rw [maskFilter_replicate_true _ _ hl]
  rw [hmap, List.map_id]

theorem missing_noop (df : DataFrame) (hwf : df.wfb = true) (hne : df.cols ≠ [])
    (hrows : df.nrows ≠ 0)
    (hnn : ∀ c ∈ df.cols, ∀ v ∈ c.values, v ≠ Cell.null) :
    handle_missing_values df = df := by
  unfold handle_missing_values
  have h0 : ∀ c ∈ df.cols, nullCount c = 0 := by
    intro c hc
    refine List.countP_eq_zero.mpr ?_
    intro v hv
    simpa using hnn c hc v hv
  rw [filterMap_missing_id df.nrows df.cols hrows h0]
  exact dropAllNullRows_noop df hwf hne hnn

theorem firstOccMask_distinct (rows : List (List Cell)) :
    ∀ seen, pairwiseDistinctRows rows = true →
      (∀ r ∈ rows, ∀ s ∈ seen, rowCellsBeq s r = false) →
      firstOccMask seen rows = List.replicate rows.length true := by
  induction rows with
  | nil =>
    intro _ _ _
    rfl
  | cons r rest ih =>
    intro seen hpd hdis
    have hpd' := hpd
    simp only [pairwiseDistinctRows, Bool.and_eq_true, List.all_eq_true] at hpd'
    unfold firstOccMask
    have hany : seen.any (fun s => rowCellsBeq s r) = false := by
      refine List.any_eq_false.mpr ?_
      intro s hs
      simp [hdis r (List.mem_cons_self _ _) s hs]
    rw [hany]
    simp only [Bool.not_false, List.length_cons, List.replicate_succ]
    rw [ih (r :: seen) hpd'.2 ?_]
    intro r' hr' s hs
    rcases List.mem_cons.mp hs with rfl | hsseen
    · simpa using hpd'.1 r' hr'
    · exact hdis r' (List.mem_cons_of_mem _ hr') s hsseen

theorem remove_duplicate_rows_noop (df : DataFrame) (hwf : df.wfb = true)
    (hdr : pairwiseDistinctRows (dfRows df) = true) :
    remove_duplicate_rows df = df := by
  unfold remove_duplicate_rows applyMask
  have hlenr : (dfRows df).length = df.nrows := by simp [dfRows]
  rw [firstOccMask_distinct (dfRows df) [] hdr (by simp), hlenr]
  have hmap : df.cols.map (fun c => { c with values := maskFilter c.values (List.replicate df.nrows true) })
      = df.cols.map id := by
    refine List.map_congr_left ?_
    intro c hc
    have hl : c.values.length = df.nrows := by simpa using List.all_eq_true.mp hwf c hc
    simp only [id]
    rw [maskFilter_replicate_true _ _ hl]
  rw [hmap, List.map_id]

theorem standardize_noop (df : DataFrame) (h : ∀ c ∈ df.cols, c.dtype = DType.float) :
    standardize_text_columns df = df := by
  unfold standardize_text_columns
  have hmap : df.cols.map (fun c =>
      if c.dtype == DType.object then { c with values := c.values.map standardizeCell } else c)
      = df.cols.map id := by
    refine List.map_congr_left ?_
    intro c hc
    have hd := h c hc
    simp [hd]
  rw [hmap, List.map_id]

/-- C5 (amended): `clean` is a no-op — hence idempotent — on a Dataset that
is already fully cleaned in the strong sense: well-formed, non-empty, all
columns numeric (float dtype) with no nulls, names already normalized
(fixpoints of the name cleaner), not "Unnamed"-like and pairwise distinct,
and no two rows value-equal.  The claim as stated — idempotence for every
cleaned Dataset — fails, because a second pass reprocesses what the first
pass's text standardization produced (nulls from literal "nan" strings are
then filled with empty strings, re-standardized values can create new
duplicates or parse as booleans); see the counterexample. -/
theorem clean_dataframe_noop (df : DataFrame)
    (hwf : df.wfb = true)
    (hne : df.cols ≠ [])
    (hrows : df.nrows ≠ 0)
    (hdtype : ∀ c ∈ df.cols, c.dtype = DType.float)
    (hnn : ∀ c ∈ df.cols, ∀ v ∈ c.values, v ≠ Cell.null)
    (hnames : ∀ c ∈ df.cols, clean_column_name c.name = c.name)
    (hunnamed : ∀ c ∈ df.cols, containsSub c.name "Unnamed" = false)
    (hnd : df.colNames.Nodup)
    (hdr : pairwiseDistinctRows (dfRows df) = true) :
    clean_dataframe df = df := by
  unfold clean_dataframe
  rw [handle_unnamed_noop df hunnamed,
      clean_column_names_noop df hnames hnd,
      detect_noop df hdtype,
      missing_noop df hwf hne hrows hnn,
      remove_duplicate_rows_noop df hwf hdr,
      standardize_noop df hdtype]

/-- C5 (counterexample): cleaning the one-column table ["x", "nan"] yields
["x", null] (standardization turns the literal into the missing marker),
and cleaning that again yields ["x", ""] (the second missing-value pass
fills the null with the empty string): `clean (clean t) ≠ clean t`. -/
theorem clean_dataframe_not_idempotent :
    clean_dataframe (clean_dataframe dfTextNan) ≠ clean_dataframe dfTextNan := by
  decide

theorem clean_dataframe_noop_witness :
    clean_dataframe dfOneFloat = dfOneFloat :=
  clean_dataframe_noop dfOneFloat (by decide) (by decide) (by decide) (by decide)
    (by decide) (by decide) (by decide) (by decide) (by decide)

theorem boolStep_dtype_ne_float {c : Column} (hobj : c.dtype = DType.object) :
    (boolStep c).dtype ≠ DType.float := by
  unfold boolStep
  split
  · show (if _ then DType.bool else DType.object) ≠ DType.float
    split
    · decide
    · decide
  · rw [hobj]
    decide

/-- C6 (amended): the numeric-coercion rule of per-column type inference
fires iff STRICTLY more than 50% of the column's `len(df)` entries parse
as numbers after separator stripping (the source compares with `> 0.5`):
above the threshold the column becomes float with the parsed values
(unparsed entries to null); at or below it the column is not converted to
numeric — though the later datetime or boolean rules may still convert it
away from text.  The claim's "at least 50%" fails exactly at the 50%
boundary; see the counterexample. -/
theorem convert_column_numeric_threshold (n : Nat) (c : Column) (hobj : c.dtype = DType.object) :
    (2 * (numericParsed c.values).countP (fun o => o.isSome) > n →
      (convert_column n c).dtype = DType.float ∧
      (convert_column n c).values = (numericParsed c.values).map (fun o =>
        match o with
        | some q => Cell.float q
        | none => Cell.null)) ∧
    (¬ 2 * (numericParsed c.values).countP (fun o => o.isSome) > n →
      (convert_column n c).dtype ≠ DType.float) := by
  constructor
  · intro hgt
    unfold convert_column
    rw [if_neg (by rw [hobj]; simp), if_pos hgt]
    exact ⟨rfl, rfl⟩
  · intro hle
    unfold convert_column
    rw [if_neg (by rw [hobj]; simp), if_neg hle]
    split
    · split
      · simp
      · exact boolStep_dtype_ne_float hobj
    · exact boolStep_dtype_ne_float hobj

/-- C6 (counterexample): in a two-row column holding "2" and "x", exactly
50% of the values parse as numbers, yet type inference leaves the column
as text (object dtype) — the claim says at least 50% makes it numeric. -/
theorem numeric_threshold_half_stays_text :
    dfHalfNumeric.nrows = 2 ∧
      (∀ c ∈ dfHalfNumeric.cols, 2 * (numericParsed c.values).countP (fun o => o.isSome) = 2) ∧
      (detect_and_convert_types dfHalfNumeric).cols.map (fun c => c.dtype) = [DType.object] := by
  decide

theorem convert_column_numeric_threshold_witness :
    (convert_column 2 ⟨"a", DType.object, [Cell.text "3", Cell.text "4"]⟩).dtype = DType.float ∧
      (convert_column 2 ⟨"a", DType.object, [Cell.text "2", Cell.text "x"]⟩).dtype ≠ DType.float :=
  ⟨((convert_column_numeric_threshold 2 ⟨"a", DType.object, [Cell.text "3", Cell.text "4"]⟩
      (by decide)).1 (by decide)).1,
   (convert_column_numeric_threshold 2 ⟨"a", DType.object, [Cell.text "2", Cell.text "x"]⟩
      (by decide)).2 (by decide)⟩

/-- C7: the deterministic fallback classifier selects the intent by the
first matching keyword group in the priority order visualize > filter >
aggregate > compare > correlation > summarize, takes as columns the
dataset column names occurring case-insensitively as substrings of the
query (defaulting to the first two dataset columns when none match),
detects the operation by keyword with default describe, and returns empty
filters; in particular "show me the average of revenue" against
["revenue", "region"] yields intent=aggregate, operation=mean,
columns=["revenue"]. -/
theorem fallback_classifier_spec (q : String) (cols : List String) :
    ((hasAnyWord (strToLower q) vizWords = true →
        (fallback_analysis q cols).intent = "visualize") ∧
     (hasAnyWord (strToLower q) vizWords = false →
        hasAnyWord (strToLower q) filterWords = true →
        (fallback_analysis q cols).intent = "filter") ∧
     (hasAnyWord (strToLower q) vizWords = false →
        hasAnyWord (strToLower q) filterWords = false →
        hasAnyWord (strToLower q) aggWords = true →
        (fallback_analysis q cols).intent = "aggregate") ∧
     (hasAnyWord (strToLower q) vizWords = false →
        hasAnyWord (strToLower q) filterWords = false →
        hasAnyWord (strToLower q) aggWords = false →
        hasAnyWord (strToLower q) compareWords = true →
        (fallback_analysis q cols).intent = "compare") ∧
     (hasAnyWord (strToLower q) vizWords = false →
        hasAnyWord (strToLower q) filterWords = false →
        hasAnyWord (strToLower q) aggWords = false →
        hasAnyWord (strToLower q) compareWords = false →
        hasAnyWord (strToLower q) corrWords = true →
        (fallback_analysis q cols).intent = "correlation") ∧
     (hasAnyWord (strToLower q) vizWords = false →
        hasAnyWord (strToLower q) filterWords = false →
        hasAnyWord (strToLower q) aggWords = false →
        hasAnyWord (strToLower q) compareWords = false →
        hasAnyWord (strToLower q) corrWords = false →
        (fallback_analysis q cols).intent = "summarize") ∧
     ((fallback_analysis q cols).columns =
        if (cols.filter (fun c => containsSub (strToLower q) (strToLower c))).isEmpty then
          cols.take 2
        else cols.filter (fun c => containsSub (strToLower q) (strToLower c))) ∧
     ((containsSub (strToLower q) "sum" || containsSub (strToLower q) "total") = true →
        (fallback_analysis q cols).operation = "sum") ∧
     ((containsSub (strToLower q) "sum" || containsSub (strToLower q) "total") = false →
        (containsSub (strToLower q) "average" || containsSub (strToLower q) "mean") = true →
        (fallback_analysis q cols).operation = "mean") ∧
     ((containsSub (strToLower q) "sum" || containsSub (strToLower q) "total") = false →
        (containsSub (strToLower q) "average" || containsSub (strToLower q) "mean") = false →
        containsSub (strToLower q) "count" = true →
        (fallback_analysis q cols).operation = "count") ∧
     ((containsSub (strToLower q) "sum" || containsSub (strToLower q) "total") = false →
        (containsSub (strToLower q) "average" || containsSub (strToLower q) "mean") = false →
        containsSub (strToLower q) "count" = false →
        (containsSub (strToLower q) "max" || containsSub (strToLower q) "maximum") = true →
        (fallback_analysis q cols).operation = "max") ∧
     ((containsSub (strToLower q) "sum" || containsSub (strToLower q) "total") = false →
        (containsSub (strToLower q) "average" || containsSub (strToLower q) "mean") = false →
        containsSub (strToLower q) "count" = false →
        (containsSub (strToLower q) "max" || containsSub (strToLower q) "maximum") = false →
        (containsSub (strToLower q) "min" || containsSub (strToLower q) "minimum") = true →
        (fallback_analysis q cols).operation = "min") ∧
     ((containsSub (strToLower q) "sum" || containsSub (strToLower q) "total") = false →
        (containsSub (strToLower q) "average" || containsSub (strToLower q) "mean") = false →
        containsSub (strToLower q) "count" = false →
        (containsSub (strToLower q) "max" || containsSub (strToLower q) "maximum") = false →
        (containsSub (strToLower q) "min" || containsSub (strToLower q) "minimum") = false →
        (fallback_analysis q cols).operation = "describe") ∧
     (fallback_analysis q cols).filters = []) ∧
    fallback_analysis "show me the average of revenue" ["revenue", "region"] =
      { intent := "aggregate", columns := ["revenue"], operation := "mean", filters := [],
        chart_type := none,
        explanation := "I understood you want to aggregate the data" } := by
  refine ⟨⟨?_, ?_, ?_, ?_, ?_, ?_, rfl, ?_, ?_, ?_, ?_, ?_, ?_, rfl⟩, by decide⟩
  all_goals intros
  all_goals simp_all [fallback_analysis, detectIntent, detect_operation]

theorem fallback_classifier_spec_witness :
    fallback_analysis "show me the average of revenue" ["revenue", "region"] =
      { intent := "aggregate", columns := ["revenue"], operation := "mean", filters := [],
        chart_type := none,
        explanation := "I understood you want to aggregate the data" } :=
  (fallback_classifier_spec "show me the average of revenue" ["revenue", "region"]).2

/-- C9 (amended): the compare handler proceeds whenever at least 2 columns
are REQUESTED — validity is not checked by the guard, which runs before
the validity filter, so the comparison can execute with fewer than 2 valid
columns (the valid ones are capped at 3).  When at least 2 of the compared
columns are numeric and the first two numeric columns have at least
min(100, max(1, row count)) complete rows, the response additionally
carries a line chart over a sample of at most 100 of those rows; when the
complete rows fall short of that sample size, `DataFrame.sample` raises
instead and the handler surfaces the error (which the router then turns
into the apology response).  The claim's "only when ≥2 valid columns" and
its unconditional chart promise both fail; see the counterexample. -/
theorem compare_columns_amended (df : DataFrame) (columns0 : List String)
    (h2 : 2 ≤ columns0.length) :
    (∀ cx cy rest,
        ((columns0.filterMap (fun n => df.findCol n)).take 3).filter
            (fun c => isNumericDtype c.dtype) = cx :: cy :: rest →
        (min 100 (max 1 df.nrows) ≤ (completeXY cx cy).length →
          ∃ r ch, compare_columns df columns0 = .ok r ∧ r.chart = some ch ∧
            ch.type = "line" ∧ ch.data.length ≤ 100 ∧
            ch.x_axis = cx.name ∧ ch.y_axis = cy.name) ∧
        ((completeXY cx cy).length < min 100 (max 1 df.nrows) →
          ∃ e, compare_columns df columns0 = .error e)) ∧
    ((((columns0.filterMap (fun n => df.findCol n)).take 3).filter
          (fun c => isNumericDtype c.dtype)).length ≤ 1 →
      ∃ r, compare_columns df columns0 = .ok r ∧ r.chart = none ∧
        r.text = "Comparison of " ++
          String.intercalate ", "
            (((columns0.filterMap (fun n => df.findCol n)).take 3).map (fun c => c.name)) ++ ":") := by
  have hnot : ¬ columns0.length < 2 := by omega
  constructor
  · intro cx cy rest hEq
    constructor
    · intro hpool
      simp only [compare_columns]
      rw [if_neg hnot]
      simp only [hEq]
      rw [if_pos hpool]
      refine ⟨_, _, rfl, rfl, rfl, ?_, rfl, rfl⟩
      simp only [List.length_take]
      omega
    · intro hlt
      simp only [compare_columns]
      rw [if_neg hnot]
      simp only [hEq]
      rw [if_neg (by omega)]
      exact ⟨_, rfl⟩
  · intro hlen
    rcases hEq : ((columns0.filterMap (fun n => df.findCol n)).take 3).filter
        (fun c => isNumericDtype c.dtype) with _ | ⟨c1, _ | ⟨c2, rest⟩⟩
    · simp only [compare_columns]
      rw [if_neg hnot]
      simp only [hEq]
      exact ⟨_, rfl, rfl, rfl⟩
    · simp only [compare_columns]
      rw [if_neg hnot]
      simp only [hEq]
      exact ⟨_, rfl, rfl, rfl⟩
    · rw [hEq] at hlen
      simp at hlen

/-- C9 (counterexample): with only "a" present in the frame, the request
["a", "b"] has exactly one valid column, yet the handler executes the
comparison ("Comparison of a:") — the claim says it executes only when at
least 2 requested columns are valid. -/
theorem compare_columns_runs_with_one_valid_column :
    okText (compare_columns dfOneFloat ["a", "b"]) = some "Comparison of a:" ∧
      ((["a", "b"] : List String).filter (fun n => dfOneFloat.hasCol n)).length = 1 := by
  decide

theorem compare_columns_amended_witness :
    (∃ r, compare_columns dfOneFloat ["a", "b"] = .ok r ∧ r.chart = none ∧
        r.text = "Comparison of " ++
          String.intercalate ", "
            ((((["a", "b"] : List String).filterMap (fun n => dfOneFloat.findCol n)).take 3).map
              (fun c => c.name)) ++ ":") ∧
    (∃ r ch, compare_columns dfTwoFloat ["a", "b"] = .ok r ∧ r.chart = some ch ∧
        ch.type = "line" ∧ ch.data.length ≤ 100 ∧
        ch.x_axis = (⟨"a", .float, [.float 1, .float 2]⟩ : Column).name ∧
        ch.y_axis = (⟨"b", .float, [.float 3, .float 4]⟩ : Column).name) := by
  constructor
  · exact (compare_columns_amended dfOneFloat ["a", "b"] (by decide)).2 (by decide)
  · exact ((compare_columns_amended dfTwoFloat ["a", "b"] (by decide)).1
      ⟨"a", .float, [.float 1, .float 2]⟩ ⟨"b", .float, [.float 3, .float 4]⟩ []
      (by decide)).1 (by decide)

/-- C10: the deterministic fallback classifier always returns an empty
filters mapping, so a query that reaches the filter handler through the
fallback path (filter intent, no chart-type keyword) against a non-empty
Dataset applies no filter at all: it returns the first 20 rows of the
whole dataset together with its total row count — never the "no match"
response. -/
theorem fallback_filter_first_rows (q : String) (cols : List String) (df : DataFrame)
    (hint : (fallback_analysis q cols).intent = "filter")
    (hchart : (fallback_analysis q cols).chart_type = none)
    (hr : df.nrows ≠ 0) (hc : df.cols ≠ []) :
    (fallback_analysis q cols).filters = [] ∧
    execute_intent df (fallback_analysis q cols) q =
      { sender := "ai",
        text := "Found " ++ toString df.nrows ++ " matching records. Showing the first 20:",
        data := some (.table ((dfRecords df).take 20)), chart := none } := by
  refine ⟨rfl, ?_⟩
  unfold execute_intent
  have hroute : routed df (fallback_analysis q cols) = .ok (filter_data df []) := by
    unfold routed
    rw [hint, hchart]
    rw [if_neg (by simp [chartTruthy])]
    rw [if_neg (by decide)]
    rw [if_pos rfl]
    rfl
  rw [hroute]
  simp only [filter_data, List.foldl_nil]
  have h1 : (dfRecords df).isEmpty = false := by
    have hlen : (dfRecords df).length = df.nrows := by simp [dfRecords]
    rcases he : dfRecords df with _ | ⟨x, xs⟩
    · rw [he] at hlen
      simp at hlen
      omega
    · rfl
  have h2 : df.cols.isEmpty = false := by
    rcases he : df.cols with _ | ⟨x, xs⟩
    · exact absurd he hc
    · rfl
  rw [if_neg (by simp [h1, h2])]
  have hlen : (dfRecords df).length = df.nrows := by simp [dfRecords]
  rw [hlen]

theorem fallback_filter_first_rows_witness :
    (fallback_analysis "only" ["a"]).filters = [] ∧
    execute_intent dfOneFloat (fallback_analysis "only" ["a"]) "only" =
      { sender := "ai",
        text := "Found " ++ toString dfOneFloat.nrows ++ " matching records. Showing the first 20:",
        data := some (.table ((dfRecords dfOneFloat).take 20)), chart := none } :=
  fallback_filter_first_rows "only" ["a"] dfOneFloat (by decide) (by decide) (by decide) (by decide)

theorem Q.norm_den_pos (x : Q) : 0 < (Q.norm x).den := by
  unfold Q.norm
  split
  · simp
    omega
  · split
    · simp
    · omega

theorem Q.ble_trans {x y z : Q} (h1 : Q.ble x y = true) (h2 : Q.ble y z = true) :
    Q.ble x z = true := by
  have hx := Q.norm_den_pos x
  have hy := Q.norm_den_pos y
  have hz := Q.norm_den_pos z
  simp only [Q.ble, decide_eq_true_eq] at h1 h2 ⊢
  have h1' := mul_le_mul_of_nonneg_right h1 (Int.le_of_lt hz)
  have h2' := mul_le_mul_of_nonneg_right h2 (Int.le_of_lt hx)
  have hcomb : ((Q.norm x).num * (Q.norm z).den) * (Q.norm y).den ≤
      ((Q.norm z).num * (Q.norm x).den) * (Q.norm y).den := by nlinarith
  exact le_of_mul_le_mul_right hcomb hy

theorem Q.ble_total (x y : Q) : Q.ble x y = true ∨ Q.ble y x = true := by
  simp only [Q.ble, decide_eq_true_eq]
  exact Int.le_total _ _

theorem corrPairs_mem {cols : List Column} {e : CorrEntry} (h : e ∈ corrPairs cols) :
    ∃ c d, e = mkCorrEntry c d := by
  induction cols with
  | nil => simp [corrPairs] at h
  | cons c rest ih =>
    simp only [corrPairs, List.mem_append, List.mem_map] at h
    rcases h with ⟨d, _, rfl⟩ | h
    · exact ⟨c, d, rfl⟩
    · exact ih h

theorem mkCorrEntry_strength (c d : Column) :
    (mkCorrEntry c d).strength = "Strong" ↔
      49 * (mkCorrEntry c d).den < 100 * ((mkCorrEntry c d).num * (mkCorrEntry c d).num) := by
  simp only [mkCorrEntry]
  by_cases hcond : 100 * ((pairStats c.values d.values).1 * (pairStats c.values d.values).1) >
      49 * (pairStats c.values d.values).2
  · simp [hcond]
  · simp [hcond]

/-- C8: the correlation handler reports, over the float-dtype columns,
exactly the unordered pairs with den > 0 (pandas notna) and |r| > 0.5
(den < 4 num^2, where r = num / sqrt den over the pairwise-complete
observations), labels a pair Strong iff |r| > 0.7 (49 den < 100 num^2) and
Moderate otherwise, sorts by descending |r| (non-increasing r^2 key) and
caps the output at 10 (every qualifying pair is reported whenever fewer
than 10 qualify); with no numeric columns, or no qualifying pair, an
explanatory message is returned with no table.  For the two perfectly
anti-correlated columns of dfAnti the single reported pair has num = -6,
den = 36 — i.e. Correlation = -6/sqrt 36 = -1.0 exactly (num < 0 and
num^2 = den) — and Strength = "Strong". -/
theorem find_correlations_spec (df : DataFrame) :
    ((selectNumber df).isEmpty = true →
      find_correlations df =
        { sender := "ai", text := "No numeric columns found for correlation analysis.",
          data := none, chart := none }) ∧
    ((selectNumber df).isEmpty = false →
      ((corrPairs (selectNumber df)).filter qualifies).isEmpty = true →
      find_correlations df =
        { sender := "ai",
          text := "No strong correlations found between numeric columns (threshold: |r| > 0.5).",
          data := none, chart := none }) ∧
    (∀ es, (find_correlations df).data = some (.correlations es) →
      es.length ≤ 10 ∧
      (∀ e ∈ es, (0 < e.den ∧ e.den < 4 * (e.num * e.num)) ∧
        (e.strength = "Strong" ↔ 49 * e.den < 100 * (e.num * e.num)) ∧
        e ∈ (corrPairs (selectNumber df)).filter qualifies) ∧
      es.Pairwise (fun a b => corrKey b ≤ corrKey a) ∧
      (∀ e ∈ (corrPairs (selectNumber df)).filter qualifies, e ∈ es ∨ es.length = 10)) ∧
    (find_correlations dfAnti =
      { sender := "ai", text := "Found 1 significant correlations:",
        data := some (.correlations [⟨"x", "y", ⟨-6, 1⟩, ⟨36, 1⟩, "Strong"⟩]), chart := none } ∧
     (⟨-6, 1⟩ : Q) < 0 ∧ Q.beq ((⟨-6, 1⟩ : Q) * ⟨-6, 1⟩) ⟨36, 1⟩ = true) := by
  refine ⟨?_, ?_, ?_, by decide⟩
  · intro h
    simp only [find_correlations]
    rw [if_pos h]
  · intro h1 h2
    simp only [find_correlations]
    rw [if_neg (by simp [h1]), if_pos h2]
  · intro es hes
    haveI instTr : IsTrans CorrEntry (fun a b => corrDescLe a b = true) :=
      ⟨fun a b c hab hbc => Q.ble_trans hbc hab⟩
    haveI instTot : IsTotal CorrEntry (fun a b => corrDescLe a b = true) :=
      ⟨fun a b => Q.ble_total (corrKey b) (corrKey a)⟩
    simp only [find_correlations] at hes
    split at hes
    · exact Option.noConfusion hes
    · split at hes
      · exact Option.noConfusion hes
      · injection hes with hes1
        injection hes1 with hes2
        subst hes2
        constructor
        · simp only [List.length_take]
          omega
        refine ⟨?_, ?_, ?_⟩
        · intro e he
          have heS : e ∈ List.insertionSort (fun a b => corrDescLe a b = true)
              ((corrPairs (selectNumber df)).filter qualifies) :=
            List.take_subset _ _ he
          have hstrong : e ∈ (corrPairs (selectNumber df)).filter qualifies :=
            (List.perm_insertionSort _ _).subset heS
          have hq := (List.mem_filter.mp hstrong).2
          have hmemp := (List.mem_filter.mp hstrong).1
          simp only [qualifies, Bool.and_eq_true] at hq
          obtain ⟨c, d, rfl⟩ := corrPairs_mem hmemp
          exact ⟨⟨hq.1, hq.2⟩, mkCorrEntry_strength c d, hstrong⟩
        · have hs := List.sorted_insertionSort (fun a b => corrDescLe a b = true)
            ((corrPairs (selectNumber df)).filter qualifies)
          exact List.Pairwise.sublist (List.take_sublist _ _) hs
        · intro e he
          have heS : e ∈ List.insertionSort (fun a b => corrDescLe a b = true)
              ((corrPairs (selectNumber df)).filter qualifies) :=
            ((List.perm_insertionSort _ _).mem_iff).mpr he
          by_cases hlen : (List.insertionSort (fun a b => corrDescLe a b = true)
              ((corrPairs (selectNumber df)).filter qualifies)).length ≤ 10
          · left
            rw [List.take_of_length_le hlen]
            exact heS
          · right
            simp only [List.length_take]
            omega

theorem find_correlations_spec_witness :
    find_correlations dfAnti =
      { sender := "ai", text := "Found 1 significant correlations:",
        data := some (.correlations [⟨"x", "y", ⟨-6, 1⟩, ⟨36, 1⟩, "Strong"⟩]), chart := none } ∧
    (⟨-6, 1⟩ : Q) < 0 ∧ Q.beq ((⟨-6, 1⟩ : Q) * ⟨-6, 1⟩) ⟨36, 1⟩ = true :=
  (find_correlations_spec dfAnti).2.2.2
